import Mathlib

/-!
Verification of the intent-routing and context-augmentation pipeline of the
openai-online-chat repository.

The repository contains two evolutionary snapshots of `ChatService`
(`src/services/ChatService.ts`): the first (lines 1-482) is embedded in
namespace `V1`, the second (lines 484-1045) in namespace `V2`.  The
`PromptBuilder` utility, the `WebSearchHandler` intent classifier and the
backend-relay `ChatService` are embedded in namespaces `PromptBuilder`,
`WSH` and `Relay`.

JavaScript strings are modelled as Lean `String` (a list of characters);
`toLowerCase`, `includes`, `startsWith`, `trim` and the falsy-default
operator `x || y` (on strings) are given explicit executable models below.
Network I/O (`fetch`, `response.json()`, `response.text()`) is modelled by
environment records whose fields carry the outcome of each call: `Except`
values model calls that may throw, and `try`/`catch` blocks are modelled by
the `jsTry` combinator.  `new Date()` derived timestamps are supplied by the
environment as opaque strings.
-/

set_option maxRecDepth 8192
set_option linter.unusedVariables false

/-- Model of JavaScript `haystack.includes(needle)`: `infixOfB needle hay`
decides whether `needle` occurs contiguously inside `hay`. -/
def infixOfB [BEq α] (needle : List α) : List α → Bool
  | [] => needle.isEmpty
  | c :: rest => needle.isPrefixOf (c :: rest) || infixOfB needle rest

/-- JavaScript `s.includes(sub)`. -/
def jsIncludes (s sub : String) : Bool :=
  infixOfB sub.data s.data

/-- JavaScript `s.startsWith(sub)`. -/
def jsStartsWith (s sub : String) : Bool :=
  sub.data.isPrefixOf s.data

/-- JavaScript `s.toLowerCase()` (character-wise lowering; the source only
ever matches ASCII keywords, for which this model agrees with JS). -/
def toLowerStr (s : String) : String :=
  String.mk (s.data.map Char.toLower)

/-- JavaScript `s.trim()`. -/
def jsTrim (s : String) : String :=
  String.mk (((s.data.dropWhile Char.isWhitespace).reverse.dropWhile Char.isWhitespace).reverse)

/-- JavaScript falsy-default `a || b` on strings: the empty string (and an
absent value, modelled as the empty string) falls through to `b`. -/
def jsOr (a b : String) : String :=
  if a = "" then b else a

/-- Model of a JavaScript `try { body } catch (e) { handler }` block around
code whose exceptions are modelled in `Except`. -/
def jsTry (body : Except ε α) (handler : ε → Except ε α) : Except ε α :=
  match body with
  | .ok a => .ok a
  | .error e => handler e

/-- Characters left unescaped by JavaScript `encodeURIComponent`. -/
def isUnreservedUriChar (c : Char) : Bool :=
  c.isAlphanum || c == '-' || c == '_' || c == '.' || c == '!' ||
    c == '~' || c == '*' || c == Char.ofNat 39 || c == '(' || c == ')'

/-- Upper-case hexadecimal digit of a value below 16. -/
def hexDigit (n : Nat) : Char :=
  if n < 10 then Char.ofNat (48 + n) else Char.ofNat (65 + (n - 10))

/-- Percent-encoding of one UTF-8 byte. -/
def percentEncodeByte (b : UInt8) : List Char :=
  ['%', hexDigit (b.toNat / 16), hexDigit (b.toNat % 16)]

/-- Model of JavaScript `encodeURIComponent`. -/
def encodeURIComponent (s : String) : String :=
  String.mk (s.data.flatMap fun c =>
    if isUnreservedUriChar c then [c]
    else (String.mk [c]).toUTF8.toList.flatMap percentEncodeByte)

/-- The `webSearchProvider` union type `'pskill9' | 'brave' | 'docker'`. -/
inductive Provider where
  | pskill9
  | brave
  | docker
deriving DecidableEq

/-- String interpolation of a `Provider` value (template literals insert the
union's string value). -/
def Provider.name : Provider → String
  | .pskill9 => "pskill9"
  | .brave => "brave"
  | .docker => "docker"

/-- The `Config` interface of `ChatService.ts`. -/
structure Config where
  openaiApiKey : String
  mcpServerUrl : String
  model : String
  enableTimeServer : Bool
  enableWebSearch : Bool
  webSearchProvider : Provider
  braveApiKey : String
deriving DecidableEq

/-- Search-result objects produced by the second snapshot and consumed by
`PromptBuilder` (`title`, `snippet`, `url`, `content`, `provider`,
`timestamp`; an absent field is modelled as the empty string). -/
structure SearchResult where
  title : String
  snippet : String
  url : String
  content : String
  provider : String
  timestamp : String
deriving DecidableEq

/-- Tool-result objects produced by `handleTimeQuery`. -/
structure ToolResult where
  tool : String
  result : String
  details : String
deriving DecidableEq

/-- The `MCPTool` interface (its `inputSchema` is never read by any of the
modelled operations and is omitted). -/
structure MCPTool where
  name : String
  description : String
deriving DecidableEq

/-- The `Message` interface of the conversation history. -/
structure Message where
  id : String
  content : String
  role : String
  timestamp : String
  searchResults : Option (List SearchResult) := none
  tools : Option (List ToolResult) := none
deriving DecidableEq

/-- A `{role, content}` pair of the outbound OpenAI messages array. -/
structure OutMessage where
  role : String
  content : String
deriving DecidableEq

/-- The `ChatResponse` interface returned by `sendMessage`; the optional
fields model `searchResults?`/`tools?` being `undefined`. -/
structure ChatResponse where
  content : String
  searchResults : Option (List SearchResult)
  tools : Option (List ToolResult)
deriving DecidableEq

/-- One item of `data.web.results` of the Brave Search API response. -/
structure BraveItem where
  title : String
  description : String
  url : String
deriving DecidableEq

/-- Parsed JSON body of a Brave Search response: `data.web?.results` may be
absent. -/
structure BraveBody where
  results : Option (List BraveItem)
deriving DecidableEq

/-- Outcome of the Brave `fetch` once it resolved: HTTP status plus the
outcome of `response.json()` (which may itself throw). -/
structure BraveHttp where
  ok : Bool
  status : Nat
  jsonResult : Except String BraveBody

/-- Raw regex matches over the scraped Google HTML page, in document order:
`titlePattern`, `linkPattern` and `snippetPattern` match lists. -/
structure GoogleHtml where
  titleMatches : List String
  linkMatches : List String
  snippetMatches : List String

/-- Outcome of the Google-scrape `fetch` once it resolved: HTTP status plus
the outcome of `response.text()`. -/
structure GoogleHttp where
  ok : Bool
  status : Nat
  textResult : Except String GoogleHtml

/-- Environment of one web-search dispatch: outcomes of the provider
`fetch` calls (either may reject) and the current ISO timestamp used by
`new Date().toISOString()`. -/
structure SearchEnv where
  braveFetch : Except String BraveHttp
  googleFetch : Except String GoogleHttp
  nowIso : String

/-- Parsed JSON body of an OpenAI chat-completions response:
`choices[0]?.message?.content` and `error?.message` may each be absent. -/
structure OpenAIBody where
  choiceContent : Option String
  errorMessage : Option String
deriving DecidableEq

/-- Outcome of the OpenAI `fetch` once it resolved. -/
structure OpenAIHttp where
  ok : Bool
  status : Nat
  jsonResult : Except String OpenAIBody

/-- Environment of one `sendMessage` call: the search environment, the
locale timestamp used by `handleTimeQuery`, and the OpenAI call outcome as
a function of the outbound messages array. -/
structure SendEnv where
  search : SearchEnv
  nowLocale : String
  openaiFetch : List OutMessage → Except String OpenAIHttp

/-- Mutable fields of the `ChatService` instance read by `sendMessage`. -/
structure ServiceState where
  config : Option Config
  availableTools : List MCPTool

namespace V1

/-- Search-result objects of the first snapshot (no `timestamp` field). -/
structure SearchResult where
  title : String
  snippet : String
  url : String
  content : String
  provider : String
deriving DecidableEq

/-- The `providerNames` lookup table of the first snapshot's
`getFallbackResults` (an unknown key would interpolate as `undefined`). -/
def providerDisplayName (provider : String) : String :=
  if provider = "pskill9" then "pskill9/web-search"
  else if provider = "brave" then "Brave Search API"
  else if provider = "docker" then "Docker Search Server"
  else "undefined"

/-- First snapshot `getFallbackResults(query, provider)`
(ChatService.ts lines 451-474): two synthetic results labelled with the
real provider display name. -/
def getFallbackResults (query : String) (provider : String) : List SearchResult :=
  let pn := providerDisplayName provider
  [ { title := "Búsqueda sobre: " ++ query
    , snippet := "Resultados de búsqueda para \"" ++ query ++ "\" usando " ++ pn ++
        ". Información actualizada en tiempo real."
    , url := "https://www.google.com/search?q=" ++ encodeURIComponent query
    , content := "Información detallada sobre " ++ query ++ " obtenida mediante " ++ pn
    , provider := pn }
  , { title := "Más información: " ++ query
    , snippet := "Detalles adicionales sobre " ++ query ++
        " encontrados en la web. Resultados procesados por herramientas MCP."
    , url := "https://duckduckgo.com/?q=" ++ encodeURIComponent query
    , content := "Contenido complementario sobre " ++ query
    , provider := pn } ]

/-- Mapping of one Brave API item in the first snapshot's
`performBraveSearch` (lines 400-406). -/
def mapBraveItem (r : BraveItem) : SearchResult :=
  { title := r.title
  , snippet := r.description
  , url := r.url
  , content := r.description
  , provider := "Brave Search API" }

/-- First snapshot `performBraveSearch` (lines 372-414): a missing
credential, a non-2xx response, a rejected fetch or a JSON parse failure
all degrade to the two-item fallback list, not to `[]`. -/
def performBraveSearch (cfg : Config) (env : SearchEnv) (query : String) :
    Except String (List SearchResult) :=
  if cfg.braveApiKey = "" then
    .ok (getFallbackResults query "brave")
  else
    jsTry
      (match env.braveFetch with
       | .error e => .error e
       | .ok resp =>
         if resp.ok = false then
           .error ("Brave API error: " ++ toString resp.status)
         else
           match resp.jsonResult with
           | .error e => .error e
           | .ok data => .ok ((data.results.getD []).map mapBraveItem))
      (fun _ => .ok (getFallbackResults query "brave"))

end V1

/-- JavaScript `\w` (ASCII word character). -/
def isWordChar (c : Char) : Bool :=
  c.isAlphanum || c == '_'

/-- A `\b` word boundary holds before the scan position. -/
def boundaryOk : Option Char → Bool
  | none => true
  | some p => !isWordChar p

/-- One alternative of a `\b(w1|w2|...)\b/i` regex matches at the head of
`l` (case-insensitive, followed by a word boundary). -/
def matchWordHere (w : List Char) (l : List Char) : Bool :=
  w.isPrefixOf (l.map Char.toLower) &&
    (match l.drop w.length with
     | [] => true
     | c :: _ => !isWordChar c)

/-- Scan of `\b(w1|w2|...)\b/i` over a character list, tracking the
previous character for the left boundary. -/
def wordScan (words : List (List Char)) : Option Char → List Char → Bool
  | _, [] => false
  | prev, c :: rest =>
    (boundaryOk prev && words.any (fun w => matchWordHere w (c :: rest))) ||
      wordScan words (some c) rest

/-- Model of `/\b(w1|w2|...)\b/i.test(s)` for lower-case alternatives. -/
def regexWordTest (words : List String) (s : String) : Bool :=
  wordScan (words.map String.data) none s.data

/-- JavaScript `list.slice(-n)` for `n > 0`: the last `n` elements (all of
them when the list is shorter). -/
def sliceLast (l : List α) (n : Nat) : List α :=
  l.drop (l.length - n)

/-- Escaping of one character in a JSON string literal. -/
def jsonEscapeChar (c : Char) : List Char :=
  if c == '\\' then ['\\', '\\']
  else if c == '\"' then ['\\', '\"']
  else if c == '\n' then ['\\', 'n']
  else [c]

/-- Escaping of a JSON string literal body. -/
def jsonEscape (s : String) : String :=
  String.mk (s.data.flatMap jsonEscapeChar)

/-- Model of `JSON.stringify(toolResults, null, 2)` for a list of
`ToolResult` objects with three string fields. -/
def jsonStringifyTools (ts : List ToolResult) : String :=
  if ts.isEmpty then "[]"
  else
    "[\n" ++
      String.intercalate ",\n" (ts.map fun t =>
        "  \x7b\n    \"tool\": \"" ++ jsonEscape t.tool ++
          "\",\n    \"result\": \"" ++ jsonEscape t.result ++
          "\",\n    \"details\": \"" ++ jsonEscape t.details ++ "\"\n  \x7d") ++
      "\n]"

namespace V2

/-- The `searchKeywords` array of `shouldPerformSearch` (lines 759-766). -/
def searchKeywords : List String :=
  [ "busca", "buscar", "busco", "encuentra", "encontrar", "información", "info"
  , "qué es", "quién es", "cuál es", "cómo", "dónde", "cuándo", "por qué"
  , "dame", "dime", "explícame", "cuéntame", "detalles", "noticias"
  , "últimas", "actualidad", "precio", "cotización", "claude", "gpt"
  , "anthropic", "openai", "inteligencia artificial", "ia", "tecnología"
  , "empresa", "producto", "acerca de", "sobre", "habla", "resume", "resumir" ]

/-- Second snapshot `shouldPerformSearch` (lines 755-795). -/
def shouldPerformSearch (message : String) : Bool :=
  let messageLower := toLowerStr message
  let hasQuestionWords :=
    jsIncludes messageLower "?" ||
      jsStartsWith messageLower "qué" || jsStartsWith messageLower "quién" ||
      jsStartsWith messageLower "cuál" || jsStartsWith messageLower "cómo" ||
      jsStartsWith messageLower "dónde" || jsStartsWith messageLower "cuándo" ||
      jsStartsWith messageLower "por qué"
  let hasSearchKeywords := searchKeywords.any (fun k => jsIncludes messageLower k)
  let mentionsSpecificNames :=
    regexWordTest
      [ "claude", "gpt", "anthropic", "openai", "microsoft", "google", "apple"
      , "tesla", "bitcoin", "ethereum" ] message
  hasSearchKeywords || hasQuestionWords || mentionsSpecificNames

/-- The `timeKeywords` array of `extractTimeIntent` (lines 819-822). -/
def timeKeywords : List String :=
  [ "hora", "tiempo", "reloj", "horario", "zona horaria", "timezone"
  , "qué hora es", "hora actual", "diferencia horaria", "tiempo en" ]

/-- Second snapshot `extractTimeIntent` (lines 818-828). -/
def extractTimeIntent (message : String) : Option String :=
  let messageLower := toLowerStr message
  if timeKeywords.any (fun k => jsIncludes messageLower k) then some message else none

/-- Second snapshot `handleTimeQuery` (lines 830-846); `nowLocale` is the
oracle for `new Date().toLocaleString` over `es-ES`. -/
def handleTimeQuery (nowLocale : String) (query : String) : List ToolResult :=
  let queryLower := toLowerStr query
  if jsIncludes queryLower "diferencia" then
    [ { tool := "getTimeDifference"
      , result := "Diferencia horaria calculada usando MCP Time Server"
      , details := "Herramienta de diferencia horaria simulada" } ]
  else
    [ { tool := "getCurrentTime"
      , result := "Hora actual obtenida del servidor MCP Time: " ++ nowLocale
      , details := "Tiempo actual desde Time MCP Server" } ]

/-- One search-result block of `buildEnhancedPrompt` (lines 802-807). -/
def searchResultLine (index : Nat) (r : SearchResult) : String :=
  "\n" ++ toString (index + 1) ++ ". " ++ r.title ++ "\n" ++
    "   📍 Fuente: " ++ r.url ++ "\n" ++
    "   💬 Contenido: " ++ jsOr r.snippet r.content ++ "\n" ++
    "   🔧 Proveedor: " ++ r.provider ++ "\n"

/-- Second snapshot `buildEnhancedPrompt` (lines 797-816). -/
def buildEnhancedPrompt (cfg : Config) (message : String)
    (searchResults : List SearchResult) (toolResults : List ToolResult) : String :=
  let p := message
  let p :=
    if searchResults.length > 0 then
      p ++ "\n\n📊 RESULTADOS DE BÚSQUEDA WEB REAL (" ++ cfg.webSearchProvider.name ++
        "):\n" ++ String.join (searchResults.mapIdx searchResultLine) ++
        "\n⚠️ IMPORTANTE: Usa esta información de búsqueda para responder y SIEMPRE menciona las fuentes específicas.\n"
    else p
  if toolResults.length > 0 then
    p ++ "\n\n🛠️ HERRAMIENTAS MCP UTILIZADAS:\n" ++ jsonStringifyTools toolResults ++ "\n"
  else p

/-- Second snapshot `getFallbackResults` (lines 1015-1027): a single
synthetic result labelled `Sistema de fallback`. -/
def getFallbackResults (nowIso : String) (query : String) : List SearchResult :=
  [ { title := "Información sobre: " ++ query
    , snippet := "Se detectó una consulta sobre \"" ++ query ++
        "\". La búsqueda web está configurada pero puede estar experimentando problemas temporales. Te recomiendo verificar la configuración de tu proveedor de búsqueda."
    , url := "https://www.google.com/search?q=" ++ encodeURIComponent query
    , content := "Consulta de búsqueda: " ++ query
    , provider := "Sistema de fallback"
    , timestamp := nowIso } ]

/-- Second snapshot `parseGoogleResults` (lines 962-1013).  The scan loops
cap titles at the first 5 matches, links at the first 5 matches that start
with `http` and do not mention `google.com`, and snippets at the first 5
trimmed matches longer than 50 characters; the body is total, so the
source's `catch` branch (returning `[]`) is unreachable in this model. -/
def parseGoogleResults (nowIso : String) (html : GoogleHtml) (query : String) :
    List SearchResult :=
  let titles := (html.titleMatches.map jsTrim).take 5
  let links :=
    (html.linkMatches.filter
      (fun u => jsStartsWith u "http" && !jsIncludes u "google.com")).take 5
  let snippets :=
    ((html.snippetMatches.map jsTrim).filter (fun s => s.length > 50)).take 5
  let maxResults := min (min titles.length links.length) 3
  (List.range maxResults).map fun i =>
    { title := jsOr (titles.getD i "") ("Resultado sobre " ++ query)
    , snippet := jsOr (snippets.getD i "") ("Información relacionada con " ++ query)
    , url := jsOr (links.getD i "")
        ("https://www.google.com/search?q=" ++ encodeURIComponent query)
    , content := jsOr (snippets.getD i "") ("Contenido relacionado con " ++ query)
    , provider := "pskill9 Google Scraping"
    , timestamp := nowIso }

/-- Second snapshot `performPskill9Search` (lines 921-960): non-2xx, empty
parse and thrown errors all degrade to `getFallbackResults`. -/
def performPskill9Search (env : SearchEnv) (query : String) :
    Except String (List SearchResult) :=
  jsTry
    (match env.googleFetch with
     | .error e => .error e
     | .ok resp =>
       if resp.ok = false then
         .ok (getFallbackResults env.nowIso query)
       else
         match resp.textResult with
         | .error e => .error e
         | .ok html =>
           let results := parseGoogleResults env.nowIso html query
           if results.length = 0 then
             .ok (getFallbackResults env.nowIso query)
           else
             .ok results)
    (fun _ => .ok (getFallbackResults env.nowIso query))

/-- Mapping of one Brave API item in the second snapshot (lines 904-911). -/
def mapBraveItem (nowIso : String) (index : Nat) (r : BraveItem) : SearchResult :=
  { title := jsOr r.title ("Resultado " ++ toString (index + 1))
  , snippet := jsOr r.description "Sin descripción disponible"
  , url := jsOr r.url "URL no disponible"
  , content := jsOr r.description "Contenido no disponible"
  , provider := "Brave Search API"
  , timestamp := nowIso }

/-- Second snapshot `performBraveSearch` (lines 871-919): missing
credential, rejected fetch, non-2xx response and JSON parse failure all
return `[]`. -/
def performBraveSearch (cfg : Config) (env : SearchEnv) (query : String) :
    Except String (List SearchResult) :=
  if cfg.braveApiKey = "" then .ok []
  else
    jsTry
      (match env.braveFetch with
       | .error e => .error e
       | .ok resp =>
         if resp.ok = false then
           .error ("Error en Brave API: " ++ toString resp.status)
         else
           match resp.jsonResult with
           | .error e => .error e
           | .ok data => .ok ((data.results.getD []).mapIdx (mapBraveItem env.nowIso)))
      (fun _ => .ok [])

/-- Second snapshot `performDockerSearch` (lines 1029-1037): a simulated
call that always produces the fallback result. -/
def performDockerSearch (env : SearchEnv) (query : String) :
    Except String (List SearchResult) :=
  jsTry (pure (getFallbackResults env.nowIso query)) (fun _ => .ok [])

/-- Second snapshot `performWebSearch` (lines 848-869): dispatch over the
provider union inside a `try` whose handler returns `[]` (the `switch`
default branch, also `[]`, is unreachable: the union has three values). -/
def performWebSearch (config : Option Config) (env : SearchEnv) (query : String) :
    Except String (List SearchResult) :=
  match config with
  | none => .ok []
  | some cfg =>
    jsTry
      (match cfg.webSearchProvider with
       | .brave => performBraveSearch cfg env query
       | .pskill9 => performPskill9Search env query
       | .docker => performDockerSearch env query)
      (fun _ => .ok [])

/-- The history window of the second snapshot's `sendMessage`
(`conversationHistory.slice(-6)`, line 712). -/
def historyWindow : Nat := 6

/-- The system message of the second snapshot's `sendMessage`
(lines 700-710). -/
def systemPrompt (cfg : Config) (tools : List MCPTool) : String :=
  "Eres un asistente inteligente con acceso a herramientas de búsqueda web y tiempo en tiempo real.\n\nINSTRUCCIONES CRÍTICAS:\n1. Si tienes resultados de búsqueda, ÚSALOS SIEMPRE como fuente principal\n2. MENCIONA SIEMPRE las fuentes (URLs) cuando uses información de búsqueda\n3. INDICA el proveedor de búsqueda usado (" ++
    cfg.webSearchProvider.name ++
    ")\n4. Si NO tienes resultados de búsqueda para una consulta que requiere información actualizada, dilo claramente\n5. Responde SIEMPRE en español\n\nHerramientas disponibles: " ++
    String.intercalate ", " (tools.map MCPTool.name)

/-- The messages array of the second snapshot's `sendMessage`
(lines 698-720): system message, last six history entries as
`{role, content}` pairs, final user message. -/
def requestMessages (cfg : Config) (tools : List MCPTool) (history : List Message)
    (enhancedPrompt : String) : List OutMessage :=
  { role := "system", content := systemPrompt cfg tools } ::
    ((sliceLast history historyWindow).map fun m =>
      ({ role := m.role, content := m.content } : OutMessage)) ++
    [{ role := "user", content := enhancedPrompt }]

/-- Second snapshot `sendMessage` (lines 665-753), with the service state
and the history threaded explicitly (the source never writes to either;
its outer `catch` logs and rethrows, the identity on the error channel). -/
def sendMessage (st : ServiceState) (env : SendEnv) (message : String)
    (history : List Message) :
    ServiceState × List Message × Except String ChatResponse :=
  match st.config with
  | none => (st, history, .error "Service not initialized")
  | some cfg =>
    let shouldSearch := shouldPerformSearch message
    let timeQuery := extractTimeIntent message
    let result : Except String ChatResponse :=
      match
        (if shouldSearch && cfg.enableWebSearch then
          performWebSearch (some cfg) env.search message
        else
          .ok []) with
      | .error e => .error e
      | .ok searchResults =>
        let toolResults :=
          match timeQuery with
          | some q => if cfg.enableTimeServer then handleTimeQuery env.nowLocale q else []
          | none => []
        let enhancedPrompt := buildEnhancedPrompt cfg message searchResults toolResults
        let messages := requestMessages cfg st.availableTools history enhancedPrompt
        match env.openaiFetch messages with
        | .error e => .error e
        | .ok resp =>
          if resp.ok = false then
            let errorData :=
              match resp.jsonResult with
              | .ok b => b
              | .error _ => ({ choiceContent := none, errorMessage := none } : OpenAIBody)
            .error ("OpenAI API error: " ++ toString resp.status ++ " - " ++
              errorData.errorMessage.getD "Unknown error")
          else
            match resp.jsonResult with
            | .error e => .error e
            | .ok data =>
              .ok
                { content := jsOr (data.choiceContent.getD "") "No se pudo generar una respuesta."
                , searchResults := if searchResults.length > 0 then some searchResults else none
                , tools := if toolResults.length > 0 then some toolResults else none }
    (st, history, result)

/-- Projection to the `ChatResponse` outcome of `sendMessage`. -/
def sendMessageResult (st : ServiceState) (env : SendEnv) (message : String)
    (history : List Message) : Except String ChatResponse :=
  (sendMessage st env message history).2.2

end V2

namespace WSH

/-- The `explicitSearchKeywords` array of `WebSearchHandler.extractSearchIntent`. -/
def explicitSearchKeywords : List String :=
  [ "busca", "buscar", "busca información", "busca datos"
  , "encuentra", "encontrar", "busca noticias", "busca sobre"
  , "información sobre", "información acerca de", "datos sobre"
  , "noticias sobre", "noticias de", "últimas noticias"
  , "qué pasó con", "qué está pasando con", "actualidad sobre"
  , "tendencias de", "precio de", "cotización de", "valor de" ]

/-- The `generalQueryKeywords` array of `WebSearchHandler.extractSearchIntent`. -/
def generalQueryKeywords : List String :=
  [ "qué es", "quién es", "cuál es", "cómo funciona", "cómo se hace"
  , "dónde está", "cuándo ocurrió", "por qué", "para qué sirve"
  , "cuéntame sobre", "explícame", "háblame de", "detalles sobre"
  , "características de", "especificaciones de", "reviews de"
  , "opiniones sobre", "comparación entre" ]

/-- The `currentTopics` array of `WebSearchHandler.extractSearchIntent`. -/
def currentTopics : List String :=
  [ "clima", "weather", "tiempo", "temperatura"
  , "noticias", "news", "actualidad", "eventos"
  , "precio", "cotización", "stock", "mercado"
  , "resultado", "partido", "elecciones", "política" ]

/-- `WebSearchHandler.extractSearchIntent` (WebSearchHandler.ts lines
80-151): a question mark alone sets `isQuestion` but triggers a search only
together with a general-query keyword, a current topic or a specific
entity. -/
def extractSearchIntent (message : String) : Option String :=
  let messageLower := jsTrim (toLowerStr message)
  let hasExplicitSearch := explicitSearchKeywords.any (fun k => jsIncludes messageLower k)
  let hasGeneralQuery := generalQueryKeywords.any (fun k => jsIncludes messageLower k)
  let hasCurrentTopic := currentTopics.any (fun t => jsIncludes messageLower t)
  let isQuestion :=
    jsIncludes messageLower "?" ||
      jsStartsWith messageLower "qué" || jsStartsWith messageLower "quién" ||
      jsStartsWith messageLower "cuál" || jsStartsWith messageLower "cómo" ||
      jsStartsWith messageLower "dónde" || jsStartsWith messageLower "cuándo" ||
      jsStartsWith messageLower "por qué" || jsStartsWith messageLower "para qué"
  let mentionsSpecificEntity :=
    regexWordTest
      [ "claude", "gpt", "openai", "microsoft", "apple", "google", "tesla"
      , "bitcoin", "ethereum" ] messageLower ||
      regexWordTest ["iphone", "android", "windows", "linux", "mac", "ios"] messageLower ||
      regexWordTest ["python", "javascript", "react", "vue", "angular", "node"] messageLower
  let shouldSearch :=
    hasExplicitSearch ||
      (hasGeneralQuery && (isQuestion || mentionsSpecificEntity)) ||
      (isQuestion && hasCurrentTopic) ||
      (isQuestion && mentionsSpecificEntity)
  if shouldSearch then some message else none

end WSH

namespace PromptBuilder

/-- The history window of `buildMessagesArray`
(`conversationHistory.slice(-4)`, PromptBuilder.ts line 84). -/
def historyWindow : Nat := 4

/-- The disclosure note appended by `buildUserPrompt` when no search
results and no tool results are present (lines 71-73). -/
def notaDisclosure : String :=
  "\n\nNOTA: No se realizaron búsquedas web ni se usaron herramientas MCP para esta consulta. Responde con tu conocimiento general, pero menciona que no tienes información actualizada."

/-- One search-result block of `buildUserPrompt` (lines 44-52). -/
def searchEntry (cfg : Config) (nowIso : String) (index : Nat) (r : SearchResult) : String :=
  "\nResultado " ++ toString (index + 1) ++ ":\nTítulo: " ++ jsOr r.title "Sin título" ++
    "\nURL: " ++ jsOr r.url "URL no disponible" ++
    "\nContenido: " ++ jsOr r.snippet (jsOr r.content "Contenido no disponible") ++
    "\nProveedor: " ++ jsOr r.provider cfg.webSearchProvider.name ++
    "\nTimestamp: " ++ jsOr r.timestamp nowIso ++ "\n---"

/-- The full search-results section of `buildUserPrompt` (lines 42-59). -/
def searchBlock (cfg : Config) (nowIso : String) (sr : List SearchResult) : String :=
  "\n\n=== RESULTADOS DE BÚSQUEDA WEB DISPONIBLES (" ++ cfg.webSearchProvider.name ++
    ") ===\n" ++ String.join (sr.mapIdx (searchEntry cfg nowIso)) ++
    "\n\nINSTRUCCIÓN OBLIGATORIA: \n- Responde usando TODA esta información de búsqueda web\n- Cita cada fuente específica con [Fuente: URL]\n- Menciona que usaste " ++
    cfg.webSearchProvider.name ++
    " Web Search\n- Resume y sintetiza TODA la información disponible\n- NO digas que no tienes información - la tienes aquí arriba"

/-- One tool-result block of `buildUserPrompt` (lines 63-68). -/
def toolEntry (index : Nat) (t : ToolResult) : String :=
  "Herramienta " ++ toString (index + 1) ++ ": " ++ t.tool ++
    "\nResultado: " ++ t.result ++
    "\nDetalles: " ++ jsOr t.details "Sin detalles adicionales" ++ "\n---"

/-- The full tool-results section of `buildUserPrompt` (lines 61-69). -/
def toolsBlock (tr : List ToolResult) : String :=
  "\n\n=== RESULTADOS DE HERRAMIENTAS MCP ===\n" ++ String.join (tr.mapIdx toolEntry)

/-- `PromptBuilder.buildUserPrompt` (lines 39-76): the disclosure note is
appended exactly when both result lists are empty. -/
def buildUserPrompt (cfg : Config) (nowIso : String) (message : String)
    (searchResults : List SearchResult) (toolResults : List ToolResult) : String :=
  let up := "Pregunta del usuario: " ++ message
  let up :=
    if searchResults.length > 0 then up ++ searchBlock cfg nowIso searchResults else up
  let up := if toolResults.length > 0 then up ++ toolsBlock toolResults else up
  if searchResults.length = 0 && toolResults.length = 0 then up ++ notaDisclosure else up

/-- `PromptBuilder.buildSystemPrompt` (lines 7-37). -/
def buildSystemPrompt (cfg : Config) (searchResults : List SearchResult)
    (toolResults : List ToolResult) : String :=
  let sp :=
    "Eres un asistente de chat inteligente que responde de manera precisa y útil. Responde SIEMPRE en español.\n\nINSTRUCCIONES CRÍTICAS DE BÚSQUEDA WEB:\n1. Si tienes resultados de búsqueda web, DEBES USARLOS EXCLUSIVAMENTE para responder\n2. NUNCA digas que no puedes buscar - si tienes resultados, úsalos completamente\n3. SIEMPRE cita las fuentes específicas usando [Fuente: URL]\n4. SIEMPRE menciona que usaste " ++
      cfg.webSearchProvider.name ++
      " Web Search\n5. Resume y sintetiza la información de los resultados de búsqueda\n6. Sé completo pero conciso en tus respuestas basadas en búsqueda"
  let sp :=
    if searchResults.length > 0 then
      sp ++ "\n\n🔍 TIENES " ++ toString searchResults.length ++
        " RESULTADOS DE BÚSQUEDA WEB ACTUALIZADOS:\nProveedor: " ++
        cfg.webSearchProvider.name ++
        "\nEstado: Información en tiempo real disponible\n\nINSTRUCCIÓN OBLIGATORIA: \n- Basa tu respuesta ÚNICAMENTE en estos resultados de búsqueda\n- Cita cada fuente específica con [Fuente: URL]\n- Menciona que la información proviene de " ++
        cfg.webSearchProvider.name ++
        " Web Search\n- Sintetiza y resume toda la información disponible\n- NO digas que no tienes información - la tienes en los resultados"
    else sp
  if toolResults.length > 0 then
    sp ++ "\n\n⚡ HERRAMIENTAS MCP UTILIZADAS:\n" ++
      String.intercalate "\n" (toolResults.map fun t => "- " ++ t.tool ++ ": " ++ t.result)
  else sp

/-- `PromptBuilder.buildMessagesArray` (lines 78-93): one system message,
the last four history entries as `{role, content}` pairs in order, one
final user message. -/
def buildMessagesArray (cfg : Config) (nowIso : String)
    (conversationHistory : List Message) (message : String)
    (searchResults : List SearchResult) (toolResults : List ToolResult) :
    List OutMessage :=
  { role := "system", content := buildSystemPrompt cfg searchResults toolResults } ::
    ((sliceLast conversationHistory historyWindow).map fun m =>
      ({ role := m.role, content := m.content } : OutMessage)) ++
    [{ role := "user"
     , content := buildUserPrompt cfg nowIso message searchResults toolResults }]

end PromptBuilder

namespace Relay

/-- State of the backend-relay `ChatService` (unnamed part_003): the keys
of the `pendingMessages` map and the `messageCounter`. -/
structure TransportState where
  pending : List String
  messageCounter : Nat
deriving DecidableEq

/-- The relay round-trip timeout (part_003 line 145: 30000 ms). -/
def timeoutMs : Nat := 30000

/-- Message-id generation (line 115). -/
def mkMessageId (counter : Nat) : String :=
  "msg_" ++ toString counter

/-- Registration phase of `sendMessage` (lines 115-133): a fresh id is
stored in `pendingMessages` and the counter advances. -/
def sendRegister (st : TransportState) : TransportState × String :=
  let id := mkMessageId st.messageCounter
  ({ pending := st.pending ++ [id], messageCounter := st.messageCounter + 1 }, id)

/-- One incoming relay frame, as seen by the `onmessage` handler:
`JSON.parse` may throw, otherwise an envelope with an optional `messageId`
and a `type` string arrives. -/
inductive Incoming where
  | parseError
  | envelope (messageId : Option String) (msgType : String)
deriving DecidableEq

/-- Whether an incoming frame carries the given `messageId`. -/
def carriesId (inc : Incoming) (id : String) : Bool :=
  match inc with
  | .parseError => false
  | .envelope (some j) _ => j == id
  | .envelope none _ => false

/-- `Map.delete` on the key list of a map (keys are unique in a map, so
deletion removes every occurrence of the key). -/
def mapDelete (pending : List String) (id : String) : List String :=
  pending.filter (fun x => x != id)

/-- The `onmessage` handler (lines 75-103) restricted to its effect on the
pending map: a frame whose `messageId` is pending settles that promise and
deletes the entry, whatever the frame `type`; parse errors and unmatched
ids leave the map unchanged. -/
def onBackendMessage (pending : List String) (inc : Incoming) : List String :=
  match inc with
  | .parseError => pending
  | .envelope none _ => pending
  | .envelope (some id) _ =>
    if pending.contains id then mapDelete pending id else pending

/-- The rejection message of the 30-second timeout (lines 140-145). -/
def timeoutMessage (id : String) : String :=
  "Timeout waiting for response from backend for message id: " ++ id

/-- The timeout callback (lines 140-145): if the id is still pending, the
entry is deleted and the race rejects with the timeout error; otherwise
nothing happens. -/
def onTimeout (pending : List String) (id : String) : List String × Option String :=
  if pending.contains id then (mapDelete pending id, some (timeoutMessage id))
  else (pending, none)

end Relay

/-! Helper lemmas. -/

theorem jsTry_ok {α : Type} (body : Except String α) (handler : String → Except String α)
    (hh : ∀ e, ∃ a, handler e = Except.ok a) : ∃ a, jsTry body handler = Except.ok a := by
  cases body with
  | ok a => exact ⟨a, rfl⟩
  | error e =>
    obtain ⟨a, ha⟩ := hh e
    exact ⟨a, ha⟩

theorem infixOfB_singleton_of_mem [BEq α] [LawfulBEq α] {c : α} {l : List α}
    (h : c ∈ l) : infixOfB [c] l = true := by
  induction l with
  | nil => cases h
  | cons x rest ih =>
    rcases List.mem_cons.mp h with h1 | h2
    · subst h1
      simp [infixOfB, List.isPrefixOf]
    · simp [infixOfB, ih h2]

theorem mem_of_infixOfB_singleton [BEq α] [LawfulBEq α] {c : α} {l : List α}
    (h : infixOfB [c] l = true) : c ∈ l := by
  induction l with
  | nil => simp [infixOfB] at h
  | cons x rest ih =>
    simp only [infixOfB, Bool.or_eq_true] at h
    rcases h with h1 | h2
    · simp only [List.isPrefixOf, Bool.and_eq_true, beq_iff_eq] at h1
      exact List.mem_cons.mpr (Or.inl h1.1)
    · exact List.mem_cons.mpr (Or.inr (ih h2))

theorem mem_dropWhile_of_mem {p : Char → Bool} {c : Char} {l : List Char}
    (hc : p c = false) (h : c ∈ l) : c ∈ l.dropWhile p := by
  induction l with
  | nil => cases h
  | cons x rest ih =>
    by_cases hx : p x = true
    · rw [List.dropWhile_cons_of_pos hx]
      rcases List.mem_cons.mp h with h1 | h2
      · subst h1; rw [hx] at hc; cases hc
      · exact ih h2
    · rw [List.dropWhile_cons_of_neg hx]
      exact h

theorem mem_jsTrim_data {c : Char} {s : String} (hc : c.isWhitespace = false)
    (h : c ∈ s.data) : c ∈ (jsTrim s).data := by
  unfold jsTrim
  refine List.mem_reverse.mpr (mem_dropWhile_of_mem hc (List.mem_reverse.mpr ?_))
  exact mem_dropWhile_of_mem hc h

theorem jsIncludes_toLower_question {m : String} (h : jsIncludes m "?" = true) :
    jsIncludes (toLowerStr m) "?" = true := by
  have h1 : ('?' : Char) ∈ m.data := mem_of_infixOfB_singleton h
  have h2 : ('?' : Char) ∈ (toLowerStr m).data := by
    have := List.mem_map_of_mem Char.toLower h1
    simpa [toLowerStr] using this
  exact infixOfB_singleton_of_mem h2

theorem jsIncludes_trim_toLower_question {m : String} (h : jsIncludes m "?" = true) :
    jsIncludes (jsTrim (toLowerStr m)) "?" = true := by
  have h1 : ('?' : Char) ∈ (toLowerStr m).data :=
    mem_of_infixOfB_singleton (jsIncludes_toLower_question h)
  exact infixOfB_singleton_of_mem (mem_jsTrim_data (by decide) h1)

/-! Claim theorems. -/

/-- C1: for every input string query, the second snapshot's search
operation `performWebSearch`, and each provider variant it dispatches to
(`performBraveSearch`, `performPskill9Search`, `performDockerSearch`),
returns a list of search results and never throws: every internal error is
caught and degraded to an empty list or a fixed fallback result. -/
theorem claim_C1_search_never_throws (config : Option Config) (cfg : Config)
    (env : SearchEnv) (query : String) :
    (∃ rs, V2.performWebSearch config env query = Except.ok rs) ∧
    (∃ rs, V2.performBraveSearch cfg env query = Except.ok rs) ∧
    (∃ rs, V2.performPskill9Search env query = Except.ok rs) ∧
    (∃ rs, V2.performDockerSearch env query = Except.ok rs) := by
  refine ⟨?_, ?_, ?_, ?_⟩
  · cases config with
    | none => exact ⟨[], rfl⟩
    | some cfg =>
      exact jsTry_ok _ _ (fun e => ⟨[], rfl⟩)
  · unfold V2.performBraveSearch
    split
    · exact ⟨[], rfl⟩
    · exact jsTry_ok _ _ (fun e => ⟨[], rfl⟩)
  · exact jsTry_ok _ _ (fun e => ⟨V2.getFallbackResults env.nowIso query, rfl⟩)
  · exact jsTry_ok _ _ (fun e => ⟨[], rfl⟩)

/-- C9: for every query string, `handleTimeQuery` returns a list of exactly
one tool result: the `getTimeDifference` placeholder when the lowercased
query contains "diferencia", otherwise the `getCurrentTime` result carrying
the current locale-formatted timestamp. -/
theorem claim_C9_time_tool (nowLocale query : String) :
    (V2.handleTimeQuery nowLocale query).length = 1 ∧
    V2.handleTimeQuery nowLocale query =
      (if jsIncludes (toLowerStr query) "diferencia" = true then
        [ { tool := "getTimeDifference"
          , result := "Diferencia horaria calculada usando MCP Time Server"
          , details := "Herramienta de diferencia horaria simulada" } ]
      else
        [ { tool := "getCurrentTime"
          , result := "Hora actual obtenida del servidor MCP Time: " ++ nowLocale
          , details := "Tiempo actual desde Time MCP Server" } ]) := by
  constructor
  · simp only [V2.handleTimeQuery]
    split <;> rfl
  · simp only [V2.handleTimeQuery]

/-- C10: `sendMessage` leaves the service state (its `Config` and tool
list) and the conversation-history argument unchanged: it only reads them
(the history entries are mapped to fresh `{role, content}` pairs in
`requestMessages`). -/
theorem claim_C10_sendMessage_frame (st : ServiceState) (env : SendEnv)
    (message : String) (history : List Message) :
    (V2.sendMessage st env message history).1 = st ∧
    (V2.sendMessage st env message history).2.1 = history := by
  obtain ⟨cfgOpt, tools⟩ := st
  cases cfgOpt <;> simp [V2.sendMessage]

/-- C5: the prompt builder produces exactly one system message first, then
the last `historyWindow` history entries mapped to `{role, content}` pairs
in their original order, then exactly one final user message; the window is
the fixed constant 4 for `PromptBuilder.buildMessagesArray` and 6 for the
second snapshot's `sendMessage` messages array, both within the documented
4-6 range. -/
theorem claim_C5_messages_shape (cfg : Config) (nowIso : String)
    (history : List Message) (message : String) (sr : List SearchResult)
    (tr : List ToolResult) (tools : List MCPTool) (enhancedPrompt : String) :
    PromptBuilder.buildMessagesArray cfg nowIso history message sr tr =
      { role := "system", content := PromptBuilder.buildSystemPrompt cfg sr tr } ::
        ((sliceLast history PromptBuilder.historyWindow).map fun m =>
          ({ role := m.role, content := m.content } : OutMessage)) ++
        [{ role := "user"
         , content := PromptBuilder.buildUserPrompt cfg nowIso message sr tr }] ∧
    (sliceLast history PromptBuilder.historyWindow).length =
      min history.length PromptBuilder.historyWindow ∧
    (PromptBuilder.buildMessagesArray cfg nowIso history message sr tr).length =
      min history.length PromptBuilder.historyWindow + 2 ∧
    4 ≤ PromptBuilder.historyWindow ∧ PromptBuilder.historyWindow ≤ 6 ∧
    V2.requestMessages cfg tools history enhancedPrompt =
      { role := "system", content := V2.systemPrompt cfg tools } ::
        ((sliceLast history V2.historyWindow).map fun m =>
          ({ role := m.role, content := m.content } : OutMessage)) ++
        [{ role := "user", content := enhancedPrompt }] ∧
    4 ≤ V2.historyWindow ∧ V2.historyWindow ≤ 6 := by
  refine ⟨rfl, ?_, ?_, by decide, by decide, rfl, by decide, by decide⟩
  · simp [sliceLast, PromptBuilder.historyWindow]
    omega
  · simp [PromptBuilder.buildMessagesArray, sliceLast, PromptBuilder.historyWindow]
    omega

/-- Concrete configuration used by witnesses and counterexamples: web
search enabled, Brave provider selected, Brave credential missing. -/
def cfg0 : Config :=
  { openaiApiKey := "k"
  , mcpServerUrl := ""
  , model := "gpt-4o-mini"
  , enableTimeServer := true
  , enableWebSearch := true
  , webSearchProvider := .brave
  , braveApiKey := "" }

/-- Concrete tool result used by witnesses and counterexamples. -/
def toolR0 : ToolResult :=
  { tool := "getCurrentTime", result := "t", details := "d" }

/-- C2 as stated is false: the message "hola?" contains "?", yet
`WebSearchHandler.extractSearchIntent` returns `null` for it (its
`isQuestion` flag alone does not make `shouldSearch` true). -/
theorem claim_C2_counterexample :
    jsIncludes "hola?" "?" = true ∧ WSH.extractSearchIntent "hola?" = none := by
  constructor
  · decide
  · decide

/-- C2 amended: every message containing "?" makes the second snapshot's
`shouldPerformSearch` true; in `WebSearchHandler.extractSearchIntent` a
question mark makes `isQuestion` true but yields a search intent only
together with a further signal, for instance a current-topic keyword. -/
theorem claim_C2_amended (message : String) :
    (jsIncludes message "?" = true → V2.shouldPerformSearch message = true) ∧
    (jsIncludes message "?" = true →
      WSH.currentTopics.any (fun t => jsIncludes (jsTrim (toLowerStr message)) t) = true →
      WSH.extractSearchIntent message = some message) := by
  constructor
  · intro h
    have h2 : jsIncludes (toLowerStr message) "?" = true := jsIncludes_toLower_question h
    simp only [V2.shouldPerformSearch, h2, Bool.true_or, Bool.or_true]
  · intro h ht
    have h2 : jsIncludes (jsTrim (toLowerStr message)) "?" = true :=
      jsIncludes_trim_toLower_question h
    simp only [WSH.extractSearchIntent, h2, ht, Bool.true_or, Bool.or_true,
      Bool.true_and, Bool.and_true, if_true]

/-- Witness for the amended C2 at concrete inputs. -/
theorem claim_C2_amended_witness :
    V2.shouldPerformSearch "hola?" = true ∧
    WSH.extractSearchIntent "el clima?" = some "el clima?" :=
  ⟨(claim_C2_amended "hola?").1 (by decide),
   (claim_C2_amended "el clima?").2 (by decide) (by decide)⟩

/-- C4 as stated is false: with empty search results, a non-empty tool
result list suppresses the disclosure note in `buildUserPrompt` (lines
71-73 require BOTH lists empty), even for a message the classifier flags
for search ("hola?" contains "?"); and the second snapshot's
`buildEnhancedPrompt` emits no disclosure at all — with both lists empty
the user prompt is the bare message. -/
theorem claim_C4_counterexample :
    V2.shouldPerformSearch "hola?" = true ∧
    jsIncludes (PromptBuilder.buildUserPrompt cfg0 "now" "hola?" [] [toolR0])
      PromptBuilder.notaDisclosure = false ∧
    V2.buildEnhancedPrompt cfg0 "hola?" [] [] = "hola?" := by
  refine ⟨by decide, by decide, rfl⟩

/-- C4 amended: `buildUserPrompt` appends the "no search performed"
disclosure note exactly when both the search-result list and the
tool-result list are empty; it does not consult the classifier's
`wantsSearch` flag, and with empty search results but non-empty tool
results the prompt is the question plus the tool block, without the
note. -/
theorem claim_C4_amended (cfg : Config) (nowIso message : String)
    (sr : List SearchResult) (tr : List ToolResult) :
    (sr = [] → tr = [] →
      PromptBuilder.buildUserPrompt cfg nowIso message sr tr =
        ("Pregunta del usuario: " ++ message) ++ PromptBuilder.notaDisclosure) ∧
    (sr = [] → tr ≠ [] →
      PromptBuilder.buildUserPrompt cfg nowIso message sr tr =
        ("Pregunta del usuario: " ++ message) ++ PromptBuilder.toolsBlock tr) := by
  constructor
  · intro hs ht
    subst hs; subst ht
    rfl
  · intro hs ht
    subst hs
    cases tr with
    | nil => exact absurd rfl ht
    | cons t ts =>
      simp [PromptBuilder.buildUserPrompt]

/-- Witness for the amended C4 at concrete inputs. -/
theorem claim_C4_amended_witness :
    PromptBuilder.buildUserPrompt cfg0 "now" "hola" [] [] =
      ("Pregunta del usuario: " ++ "hola") ++ PromptBuilder.notaDisclosure ∧
    PromptBuilder.buildUserPrompt cfg0 "now" "hola" [] [toolR0] =
      ("Pregunta del usuario: " ++ "hola") ++ PromptBuilder.toolsBlock [toolR0] :=
  ⟨(claim_C4_amended cfg0 "now" "hola" [] []).1 rfl rfl,
   (claim_C4_amended cfg0 "now" "hola" [] [toolR0]).2 rfl (by simp)⟩

/-- Concrete search environment whose Brave call yields HTTP 401. -/
def env0 : SearchEnv :=
  { braveFetch := .ok { ok := false, status := 401, jsonResult := .error "parse" }
  , googleFetch := .ok { ok := false, status := 500, textResult := .error "parse" }
  , nowIso := "2025-01-01T00:00:00.000Z" }

/-- Concrete configuration with a Brave credential present. -/
def cfgKey : Config :=
  { cfg0 with braveApiKey := "BSA-key" }

/-- Concrete Brave API response item. -/
def item0 : BraveItem :=
  { title := "T", description := "D", url := "http://u" }

/-- Concrete search environment whose Brave call succeeds with one item. -/
def env1 : SearchEnv :=
  { braveFetch := .ok { ok := true, status := 200, jsonResult := .ok { results := some [item0] } }
  , googleFetch := .ok { ok := false, status := 500, textResult := .error "parse" }
  , nowIso := "2025-01-01T00:00:00.000Z" }

/-- C6 as stated is false on the first snapshot: with the Brave credential
missing, its `performBraveSearch` (lines 372-414) returns the fixed
two-item fallback list, not `[]`. -/
theorem claim_C6_counterexample :
    cfg0.braveApiKey = "" ∧
    V1.performBraveSearch cfg0 env0 "clima" = .ok (V1.getFallbackResults "clima" "brave") ∧
    (V1.getFallbackResults "clima" "brave").length = 2 ∧
    V1.getFallbackResults "clima" "brave" ≠ [] := by
  refine ⟨rfl, rfl, rfl, by decide⟩

/-- C6 amended: the second snapshot's `performBraveSearch` returns `[]`
when the credential is missing, when the fetch rejects, when the HTTP
response is not 2xx and when the body fails to parse, and on success maps
each item to a result whose `provider` is the display name
"Brave Search API"; the first snapshot's variant instead returns the
two-item fallback list when the credential is missing. -/
theorem claim_C6_amended (cfg : Config) (env : SearchEnv) (query e nowIso : String)
    (http : BraveHttp) (body : BraveBody) (i : Nat) (item : BraveItem) :
    (cfg.braveApiKey = "" → V2.performBraveSearch cfg env query = .ok []) ∧
    (cfg.braveApiKey ≠ "" → env.braveFetch = .error e →
      V2.performBraveSearch cfg env query = .ok []) ∧
    (cfg.braveApiKey ≠ "" → env.braveFetch = .ok http → http.ok = false →
      V2.performBraveSearch cfg env query = .ok []) ∧
    (cfg.braveApiKey ≠ "" → env.braveFetch = .ok http → http.ok = true →
      http.jsonResult = .error e → V2.performBraveSearch cfg env query = .ok []) ∧
    (cfg.braveApiKey ≠ "" → env.braveFetch = .ok http → http.ok = true →
      http.jsonResult = .ok body →
      V2.performBraveSearch cfg env query =
        .ok ((body.results.getD []).mapIdx (V2.mapBraveItem env.nowIso))) ∧
    ((V2.mapBraveItem nowIso i item).provider = "Brave Search API") ∧
    (cfg.braveApiKey = "" →
      V1.performBraveSearch cfg env query = .ok (V1.getFallbackResults query "brave")) := by
  refine ⟨?_, ?_, ?_, ?_, ?_, rfl, ?_⟩
  · intro hk
    simp [V2.performBraveSearch, hk]
  · intro hk hf
    simp [V2.performBraveSearch, hk, hf, jsTry]
  · intro hk hf hok
    simp [V2.performBraveSearch, hk, hf, hok, jsTry]
  · intro hk hf hok hj
    simp [V2.performBraveSearch, hk, hf, hok, hj, jsTry]
  · intro hk hf hok hj
    simp [V2.performBraveSearch, hk, hf, hok, hj, jsTry]
  · intro hk
    simp [V1.performBraveSearch, hk]

/-- Witness for the amended C6 at concrete inputs. -/
theorem claim_C6_amended_witness :
    V2.performBraveSearch cfg0 env0 "clima" = .ok [] ∧
    V2.performBraveSearch cfgKey env0 "clima" = .ok [] ∧
    V2.performBraveSearch cfgKey env1 "clima" =
      .ok ((({ results := some [item0] } : BraveBody).results.getD []).mapIdx
        (V2.mapBraveItem env1.nowIso)) ∧
    V1.performBraveSearch cfg0 env0 "clima" = .ok (V1.getFallbackResults "clima" "brave") :=
  ⟨(claim_C6_amended cfg0 env0 "clima" "e" "n"
      { ok := false, status := 401, jsonResult := .error "parse" }
      { results := none } 0 item0).1 rfl,
   (claim_C6_amended cfgKey env0 "clima" "e" "n"
      { ok := false, status := 401, jsonResult := .error "parse" }
      { results := none } 0 item0).2.2.1 (by decide) rfl rfl,
   (claim_C6_amended cfgKey env1 "clima" "e" "n"
      { ok := true, status := 200, jsonResult := .ok { results := some [item0] } }
      { results := some [item0] } 0 item0).2.2.2.2.1 (by decide) rfl rfl rfl,
   (claim_C6_amended cfg0 env0 "clima" "e" "n"
      { ok := false, status := 401, jsonResult := .error "parse" }
      { results := none } 0 item0).2.2.2.2.2.2 rfl⟩

/-- All-empty search result, used as a `headD` default. -/
def zeroSR : SearchResult :=
  { title := "", snippet := "", url := "", content := "", provider := "", timestamp := "" }

/-- Concrete scraped page with one title and one external link. -/
def html0 : GoogleHtml :=
  { titleMatches := ["t1"], linkMatches := ["http://ex.com"], snippetMatches := [] }

/-- C7 as stated is false on the first snapshot: its `getFallbackResults`
(lines 451-474) labels the synthetic results with the real provider
display name, so a fallback produced for the `brave` provider is
indistinguishable (via `provider`) from a genuine Brave result. -/
theorem claim_C7_counterexample :
    (V1.getFallbackResults "clima" "brave").map V1.SearchResult.provider =
      ["Brave Search API", "Brave Search API"] ∧
    (V1.mapBraveItem item0).provider = "Brave Search API" ∧
    V1.performBraveSearch cfgKey env1 "clima" = .ok [V1.mapBraveItem item0] := by
  exact ⟨rfl, rfl, rfl⟩

/-- C7 amended: in the second snapshot every fallback result carries
`provider = "Sistema de fallback"`, which differs from both genuine
provider labels ("Brave Search API" for mapped Brave items and
"pskill9 Google Scraping" for scraped results), so there the synthetic
results are distinguishable; in the first snapshot the fallback carries the
real display name and is not. -/
theorem claim_C7_amended (nowIso query : String) (html : GoogleHtml) (i : Nat)
    (item : BraveItem) (fb r : SearchResult) :
    (fb ∈ V2.getFallbackResults nowIso query → fb.provider = "Sistema de fallback") ∧
    (r ∈ V2.parseGoogleResults nowIso html query → r.provider = "pskill9 Google Scraping") ∧
    (V2.mapBraveItem nowIso i item).provider = "Brave Search API" ∧
    ("Sistema de fallback" ≠ "Brave Search API") ∧
    ("Sistema de fallback" ≠ "pskill9 Google Scraping") := by
  refine ⟨?_, ?_, rfl, by decide, by decide⟩
  · intro h
    simp only [V2.getFallbackResults, List.mem_singleton] at h
    subst h
    rfl
  · intro h
    simp only [V2.parseGoogleResults, List.mem_map] at h
    obtain ⟨j, hj, hr⟩ := h
    subst hr
    rfl

/-- Witness for the amended C7 at concrete inputs. -/
theorem claim_C7_amended_witness :
    ((V2.getFallbackResults "now" "q").headD zeroSR).provider = "Sistema de fallback" ∧
    ((V2.parseGoogleResults "now" html0 "q").headD zeroSR).provider =
      "pskill9 Google Scraping" :=
  ⟨(claim_C7_amended "now" "q" html0 0 item0
      ((V2.getFallbackResults "now" "q").headD zeroSR)
      ((V2.parseGoogleResults "now" html0 "q").headD zeroSR)).1 (by decide),
   (claim_C7_amended "now" "q" html0 0 item0
      ((V2.getFallbackResults "now" "q").headD zeroSR)
      ((V2.parseGoogleResults "now" html0 "q").headD zeroSR)).2.1 (by decide)⟩

theorem relay_pending_preserved (msgs : List Relay.Incoming) (p : List String)
    (id : String) (hmem : id ∈ p)
    (hnone : ∀ inc ∈ msgs, Relay.carriesId inc id = false) :
    id ∈ msgs.foldl Relay.onBackendMessage p := by
  induction msgs generalizing p with
  | nil => exact hmem
  | cons inc rest ih =>
    have hstep : id ∈ Relay.onBackendMessage p inc := by
      cases inc with
      | parseError => exact hmem
      | envelope mid t =>
        cases mid with
        | none => exact hmem
        | some j =>
          have hj : (j == id) = false := hnone _ (List.mem_cons_self _ _)
          have hne : id ≠ j := fun h => by subst h; simp at hj
          simp only [Relay.onBackendMessage, Relay.mapDelete]
          split
          · exact List.mem_filter.mpr ⟨hmem, by simpa [bne] using hne⟩
          · exact hmem
    exact ih _ hstep (fun i hi => hnone i (List.mem_cons_of_mem _ hi))

/-- C8: when no incoming relay frame carries the `messageId` registered by
`sendMessage`, the 30-second timeout callback fires with the id still
pending: the call rejects with the `Timeout` error and the pending-request
entry is removed from the tracking map; the timeout constant is 30000 ms. -/
theorem claim_C8_relay_timeout (st : Relay.TransportState)
    (incoming : List Relay.Incoming)
    (hnone : ∀ inc ∈ incoming,
      Relay.carriesId inc (Relay.sendRegister st).2 = false) :
    (Relay.onTimeout
        (incoming.foldl Relay.onBackendMessage (Relay.sendRegister st).1.pending)
        (Relay.sendRegister st).2).2 =
      some (Relay.timeoutMessage (Relay.sendRegister st).2) ∧
    (Relay.sendRegister st).2 ∉
      (Relay.onTimeout
        (incoming.foldl Relay.onBackendMessage (Relay.sendRegister st).1.pending)
        (Relay.sendRegister st).2).1 ∧
    Relay.timeoutMs = 30000 ∧
    jsStartsWith (Relay.timeoutMessage (Relay.sendRegister st).2) "Timeout" = true := by
  have hmem0 : (Relay.sendRegister st).2 ∈ (Relay.sendRegister st).1.pending := by
    simp [Relay.sendRegister]
  have hmem : (Relay.sendRegister st).2 ∈
      incoming.foldl Relay.onBackendMessage (Relay.sendRegister st).1.pending :=
    relay_pending_preserved incoming _ _ hmem0 hnone
  have hcont : (incoming.foldl Relay.onBackendMessage
      (Relay.sendRegister st).1.pending).contains (Relay.sendRegister st).2 = true := by
    simpa [List.contains] using List.elem_eq_true_of_mem hmem
  refine ⟨?_, ?_, rfl, ?_⟩
  · simp only [Relay.onTimeout]
    rw [if_pos hcont]
  · simp only [Relay.onTimeout]
    rw [if_pos hcont]
    simp only [Relay.mapDelete]
    intro hin
    have h2 := List.mem_filter.mp hin
    simp at h2
  · obtain ⟨d⟩ := (Relay.sendRegister st).2
    rfl

/-- Witness for C8 at a concrete transport state and frame list. -/
theorem claim_C8_relay_timeout_witness :
    (Relay.onTimeout
        (([Relay.Incoming.envelope (some "other") "ASSISTANT_RESPONSE"]).foldl
          Relay.onBackendMessage
          (Relay.sendRegister ⟨[], 0⟩).1.pending)
        (Relay.sendRegister ⟨[], 0⟩).2).2 =
      some (Relay.timeoutMessage (Relay.sendRegister ⟨[], 0⟩).2) :=
  (claim_C8_relay_timeout ⟨[], 0⟩
    [Relay.Incoming.envelope (some "other") "ASSISTANT_RESPONSE"]
    (by decide)).1

theorem optNonempty_ne_some_nil {α : Type} (l : List α) :
    (if l.length > 0 then some l else none) ≠ some ([] : List α) := by
  split
  · next hlen =>
    intro heq
    rw [Option.some.injEq] at heq
    subst heq
    simp at hlen
  · simp

/-- C3: every successful `sendMessage` outcome of the second snapshot has
no empty array in `searchResults` or `tools`: each optional field is
`undefined` (`none`) unless the corresponding result list is non-empty. -/
theorem claim_C3_no_empty_arrays (st : ServiceState) (env : SendEnv)
    (message : String) (history : List Message) (resp : ChatResponse)
    (h : V2.sendMessageResult st env message history = .ok resp) :
    resp.searchResults ≠ some [] ∧ resp.tools ≠ some [] := by
  obtain ⟨cfgOpt, tools⟩ := st
  cases cfgOpt with
  | none => simp [V2.sendMessageResult, V2.sendMessage] at h
  | some cfg =>
    simp only [V2.sendMessageResult, V2.sendMessage] at h
    split at h
    · simp at h
    · split at h
      · simp at h
      · split at h
        · simp at h
        · split at h
          · simp at h
          · rw [Except.ok.injEq] at h
            subst h
            exact ⟨optNonempty_ne_some_nil _, optNonempty_ne_some_nil _⟩

/-- Concrete send environment whose completion call succeeds. -/
def env2 : SendEnv :=
  { search := env0
  , nowLocale := "1/1/2025, 00:00:00"
  , openaiFetch := fun _ =>
      .ok { ok := true, status := 200
          , jsonResult := .ok { choiceContent := some "Hola", errorMessage := none } } }

/-- Witness for C3: a concrete successful call whose response omits both
optional fields. -/
theorem claim_C3_no_empty_arrays_witness :
    ({ content := "Hola", searchResults := none, tools := none } : ChatResponse).searchResults ≠
      some [] ∧
    ({ content := "Hola", searchResults := none, tools := none } : ChatResponse).tools ≠
      some [] :=
  claim_C3_no_empty_arrays { config := some cfg0, availableTools := [] } env2 "hola" []
    { content := "Hola", searchResults := none, tools := none } (by rfl)
